import Mathlib

/-!
Verification development for the GT-511C1R fingerprint-module driver
(`FingerprintModule.cpp` / `FingerprintModule.h`).

The driver is embedded shallowly:

* machine integers (`byte`, `word`, `dword`) become `Nat`, with explicit
  `% 2^16` / `% 2^32` truncation exactly where the C++ code assigns to a
  `word` or `dword`;
* the serial receive buffer becomes a `List Nat` of the bytes available to
  one `recvResponsePkt` / `recvDataPkt` call (the code drains the buffer
  whenever it fails, so successive retry attempts see only newly arrived
  bytes, modelled by a family `arrivals : Nat → List Nat`);
* the instance fields `mRespStatus`, `mRespParam`, `mEnrollmentStage`,
  `mRespPkt` become an explicit `Session` record threaded through the
  functions;
* at the command layer, the net result of one send / poll-receive exchange
  is abstracted as a `RecvOutcome` supplied by a device oracle
  `Nat → RecvOutcome` indexed by the running count of exchanges, matching
  the four possible results of the retry loop around `recvResponsePkt`.
-/

namespace GT511

/-- Maximum number of response-packet retries (`#define TIMEOUT 11`). -/
def TIMEOUT : Nat := 11

/-- Command code `CMD_OPEN`. -/
def CMD_OPEN : Nat := 0x01

/-- Command code `CMD_CMOS_LED`. -/
def CMD_CMOS_LED : Nat := 0x12

/-- Response code `ACK`. -/
def ACK : Nat := 0x30

/-- Response code `NACK`. -/
def NACK : Nat := 0x31

/-- Error code `NACK_NOT_RECVD`: no response packet was received. -/
def NACK_NOT_RECVD : Nat := 0x0001

/-- Error code `NACK_COMM_ERR`: checksum mismatch. -/
def NACK_COMM_ERR : Nat := 0x1006

/-- Error code `NACK_BAD_FINGER`. -/
def NACK_BAD_FINGER : Nat := 0x100C

/-- Error code `NACK_ENROLL_FAILED`. -/
def NACK_ENROLL_FAILED : Nat := 0x100D

/-- Error code `NACK_DEV_ERR`. -/
def NACK_DEV_ERR : Nat := 0x100F

/-- Error code `NACK_FINGER_IS_NOT_PRESSED`. -/
def NACK_FINGER_IS_NOT_PRESSED : Nat := 0x1012

/-- Embedding of `word FingerprintModule::flipEndianness(word)`:
`((flipThis & 0x00FF) << 8) | ((flipThis & 0xFF00) >> 8)`. -/
def flipEndianness16 (flipThis : Nat) : Nat :=
  ((flipThis &&& 0x00FF) <<< 8) ||| ((flipThis &&& 0xFF00) >>> 8)

/-- Embedding of `dword FingerprintModule::flipEndianness(dword)`:
`((x & 0x000000FF) << 24) | ((x & 0xFF000000) >> 24) | ((x & 0x0000FF00) << 8) | ((x & 0x00FF0000) >> 8)`. -/
def flipEndianness32 (flipThis : Nat) : Nat :=
  ((flipThis &&& 0x000000FF) <<< 24) ||| ((flipThis &&& 0xFF000000) >>> 24) |||
  ((flipThis &&& 0x0000FF00) <<< 8) ||| ((flipThis &&& 0x00FF0000) >>> 8)

/-- Embedding of `void FingerprintModule::split(word, byte*)`:
`dest[0] = (splitThis >> 8) & 0xFF; dest[1] = splitThis & 0xFF`. -/
def split16 (splitThis : Nat) : List Nat :=
  [(splitThis >>> 8) &&& 0xFF, splitThis &&& 0xFF]

/-- Embedding of `void FingerprintModule::split(dword, byte*)`. -/
def split32 (splitThis : Nat) : List Nat :=
  [(splitThis >>> 24) &&& 0xFF, (splitThis >>> 16) &&& 0xFF,
   (splitThis >>> 8) &&& 0xFF, splitThis &&& 0xFF]

/-- Embedding of `word FingerprintModule::computeCheckSum(byte*, uint32_t)`:
a 16-bit accumulator (`word chkSum`) summed over the first `size` bytes,
wrapping modulo `2^16` at every addition as the `word` type does. -/
def computeCheckSum (arr : List Nat) (size : Nat) : Nat :=
  (arr.take size).foldl (fun chkSum b => (chkSum + b) % 65536) 0

/-- Embedding of `bool FingerprintModule::send(word, dword, bool)`, returning
the 12-byte command packet the function writes to the serial port.
Header bytes are `0x55 0xAA`, then `DEVICE_ID_LSB = 0x01`,
`DEVICE_ID_MSB = 0x00`; the (endianness-flipped) parameter and command are
split MSB-first into bytes 4..9; the checksum of the first 10 bytes is
flipped and split into bytes 10..11. -/
def send (cmd param : Nat) (isBigEndian : Bool) : List Nat :=
  let param2 := if isBigEndian then flipEndianness32 param else param
  let cmd2 := if isBigEndian then flipEndianness16 cmd else cmd
  let pkt10 := [0x55, 0xAA, 0x01, 0x00] ++ split32 param2 ++ split16 cmd2
  let chkSum := flipEndianness16 (computeCheckSum pkt10 10)
  pkt10 ++ split16 chkSum

/-- Session state held in the `FingerprintModule` instance fields. -/
structure Session where
  mRespStatus : Bool
  mRespParam : Nat
  mEnrollmentStage : Nat
  mRespPkt : List Nat
deriving DecidableEq

/-- Session value used as a concrete starting point in witnesses. -/
def initSession : Session :=
  { mRespStatus := false, mRespParam := 0, mEnrollmentStage := 0, mRespPkt := [] }

/-- Scanning loop of `recvResponsePkt`: walk the receive buffer; on a `0x55`
byte the next byte is also consumed and compared against `0xAA` (C++ `&&`
short-circuits, so the second `COMMS.read()` only happens after a `0x55`);
on a marker match the remaining 10 bytes are read if available.  Returns the
12-byte buffer and the unconsumed leftover, or `none` if the buffer ran out
first (in which case the whole buffer has been drained). -/
def scanPkt : List Nat → Option (List Nat × List Nat)
  | [] => none
  | incomingByte :: rest =>
    if incomingByte = 0x55 then
      match rest with
      | [] => none
      | second :: rest2 =>
        if second = 0xAA then
          if 10 ≤ rest2.length then
            some (0x55 :: 0xAA :: rest2.take 10, rest2.drop 10)
          else none
        else scanPkt rest2
    else scanPkt rest

/-- Transmitted checksum extracted by `recvResponsePkt`:
`givenChkSum = (buff[11] << 8) | buff[10]`, truncated by the `word`
assignment. -/
def givenChkSumOf (buff : List Nat) : Nat :=
  ((buff.getD 11 0 <<< 8) ||| buff.getD 10 0) % 65536

/-- Response parameter decoded by `recvResponsePkt`:
`(buff[7] << 24) | (buff[6] << 16) | (buff[5] << 8) | buff[4]`, truncated by
the `dword` assignment. -/
def respParamOf (buff : List Nat) : Nat :=
  ((buff.getD 7 0 <<< 24) ||| (buff.getD 6 0 <<< 16) |||
   (buff.getD 5 0 <<< 8) ||| buff.getD 4 0) % 4294967296

/-- Embedding of `bool FingerprintModule::recvResponsePkt()` acting on the
bytes currently available.  Returns the updated session, the `done` flag the
function returns, and the bytes left unconsumed in the serial buffer. -/
def recvResponsePkt (stream : List Nat) (s : Session) : Session × Bool × List Nat :=
  match scanPkt stream with
  | none =>
    ({ s with mRespStatus := false, mRespParam := NACK_NOT_RECVD }, false, [])
  | some (buff, leftover) =>
    if computeCheckSum buff 10 ≠ givenChkSumOf buff then
      ({ s with mRespStatus := false, mRespParam := NACK_COMM_ERR }, true, leftover)
    else if buff.getD 8 0 = 0x31 then
      ({ s with mRespStatus := false, mRespParam := respParamOf buff }, true, leftover)
    else
      ({ s with mRespStatus := true, mRespParam := respParamOf buff, mRespPkt := buff },
       true, leftover)

/-- Scanning loop of `recvDataPkt` (markers `0x5A 0xA5`, total packet size
`totalPktSize`).  The 8-bit loop counter of the C++ code is modelled as an
unbounded natural, which is exact for `totalPktSize ≤ 255`; theorems about
data packets therefore restrict to such sizes (the driver itself only ever
calls `recvDataPkt(24)`, total size 30). -/
def scanDataPkt (totalPktSize : Nat) : List Nat → Option (List Nat × List Nat)
  | [] => none
  | incomingByte :: rest =>
    if incomingByte = 0x5A then
      match rest with
      | [] => none
      | second :: rest2 =>
        if second = 0xA5 then
          if totalPktSize - 2 ≤ rest2.length then
            some (0x5A :: 0xA5 :: rest2.take (totalPktSize - 2),
                  rest2.drop (totalPktSize - 2))
          else none
        else scanDataPkt totalPktSize rest2
    else scanDataPkt totalPktSize rest

/-- Transmitted checksum of a data packet:
`(mDataPkt[totalPktSize-1] << 8) | mDataPkt[totalPktSize-2]`. -/
def dataGivenChkSumOf (totalPktSize : Nat) (pkt : List Nat) : Nat :=
  ((pkt.getD (totalPktSize - 1) 0 <<< 8) ||| pkt.getD (totalPktSize - 2) 0) % 65536

/-- Embedding of `bool FingerprintModule::recvDataPkt(uint32_t size)`.
Returns the `done` flag and the received `mDataPkt` contents.  Note that the
checksum check only clears `done`; it records nothing in the session state,
which `recvDataPkt` never touches. -/
def recvDataPkt (size : Nat) (stream : List Nat) : Bool × List Nat :=
  let totalPktSize := size + 6
  match scanDataPkt totalPktSize stream with
  | none => (false, [])
  | some (pkt, _) =>
    if computeCheckSum pkt (totalPktSize - 2) ≠ dataGivenChkSumOf totalPktSize pkt then
      (false, pkt)
    else (true, pkt)

/-- Retry loop `for (int i = 0; i < TIMEOUT && !recvResponsePkt(); ++i) delay(WAITTIME);`
with `fuel` remaining attempts, attempt index `i`: each attempt sees the
bytes that arrived since the previous one (`arrivals i`), because a failed
`recvResponsePkt` drains the buffer. -/
def recvLoopGo (arrivals : Nat → List Nat) : Nat → Nat → Session → Session
  | _, 0, s => s
  | i, fuel + 1, s =>
    let r := recvResponsePkt (arrivals i) s
    if r.2.1 then r.1 else recvLoopGo arrivals (i + 1) fuel r.1

/-- Session state after the full bounded retry loop (at most `TIMEOUT`
calls to `recvResponsePkt`). -/
def recvLoop (arrivals : Nat → List Nat) (s : Session) : Session :=
  recvLoopGo arrivals 0 TIMEOUT s

/-- Net result, as seen by a command-layer function, of one
`send(...)` followed by the bounded `recvResponsePkt` retry loop:
either no complete packet arrived within the budget, or a complete packet
arrived whose checksum mismatched, or a checksum-valid NACK, or a
checksum-valid acknowledgement.  These are exactly the four exit branches
of `recvResponsePkt`. -/
inductive RecvOutcome where
  | notRecvd : RecvOutcome
  | commErr : RecvOutcome
  | nackErr (errCode : Nat) : RecvOutcome
  | ackOk (param : Nat) : RecvOutcome
deriving DecidableEq

/-- Effect of the retry loop on the session fields, by outcome, copied from
the four branches at the end of `recvResponsePkt` (the ACK branch also
stores the packet, which the command layer never reads back, so the
abstract form leaves `mRespPkt` unchanged). -/
def applyRecv (s : Session) (o : RecvOutcome) : Session :=
  match o with
  | .notRecvd => { s with mRespStatus := false, mRespParam := NACK_NOT_RECVD }
  | .commErr => { s with mRespStatus := false, mRespParam := NACK_COMM_ERR }
  | .nackErr errCode => { s with mRespStatus := false, mRespParam := errCode }
  | .ackOk param => { s with mRespStatus := true, mRespParam := param }

namespace Cmd

/-- Embedding of `bool FingerprintModule::powerCMOS(bool)`: one exchange,
return `mRespStatus`.  `oracle k` is the outcome of the `k`-th exchange of
the run; the function returns the new session, its boolean result, and the
next exchange index. -/
def powerCMOS (oracle : Nat → RecvOutcome) (s : Session) (k : Nat) :
    Session × Bool × Nat :=
  let s1 := applyRecv s (oracle k)
  (s1, s1.mRespStatus, k + 1)

/-- Embedding of `bool FingerprintModule::captureFingerprint(bool)`: one
exchange, return `mRespStatus`. -/
def captureFingerprint (oracle : Nat → RecvOutcome) (s : Session) (k : Nat) :
    Session × Bool × Nat :=
  let s1 := applyRecv s (oracle k)
  (s1, s1.mRespStatus, k + 1)

/-- Embedding of `bool FingerprintModule::startEnrollment(uint32_t)`: one
exchange; on success (`mRespStatus`) the enrollment stage is reset to 0. -/
def startEnrollment (oracle : Nat → RecvOutcome) (s : Session) (k : Nat) :
    Session × Bool × Nat :=
  let s1 := applyRecv s (oracle k)
  let s2 := if s1.mRespStatus then { s1 with mEnrollmentStage := 0 } else s1
  (s2, s2.mRespStatus, k + 1)

/-- Embedding of `bool FingerprintModule::createEnrollmentTemplate()`:
for `mEnrollmentStage` 0, 1 or 2 it sends `CMD_ENROLL1/2/3` and performs one
exchange, incrementing the stage on success; for any other stage it returns
`false` immediately without touching the device or the session. -/
def createEnrollmentTemplate (oracle : Nat → RecvOutcome) (s : Session) (k : Nat) :
    Session × Bool × Nat :=
  match s.mEnrollmentStage with
  | 0 | 1 | 2 =>
    let s1 := applyRecv s (oracle k)
    let s2 := if s1.mRespStatus then { s1 with mEnrollmentStage := s1.mEnrollmentStage + 1 }
              else s1
    (s2, s2.mRespStatus, k + 1)
  | _ + 3 => (s, false, k)

/-- Embedding of `bool FingerprintModule::isFingerPressed()`: one exchange;
if the response was an ACK with a nonzero parameter the session is
overwritten with `mRespStatus = false`, `mRespParam = NACK_FINGER_IS_NOT_PRESSED`;
returns the final `mRespStatus`. -/
def isFingerPressed (oracle : Nat → RecvOutcome) (s : Session) (k : Nat) :
    Session × Bool × Nat :=
  let s1 := applyRecv s (oracle k)
  let s2 := if s1.mRespStatus ∧ s1.mRespParam ≠ 0 then
              { s1 with mRespStatus := false, mRespParam := NACK_FINGER_IS_NOT_PRESSED }
            else s1
  (s2, s2.mRespStatus, k + 1)

end Cmd

/-- States of the `enrollSequence` state machine (`enum ENROLL_STATE`). -/
inductive ENROLL_STATE where
  | START : ENROLL_STATE
  | CAPTURE : ENROLL_STATE
  | ENROLL : ENROLL_STATE
  | COMPLETE : ENROLL_STATE
  | REMOVE_FINGER : ENROLL_STATE
deriving DecidableEq

/-- Local variables of `enrollSequence` together with the session and the
running exchange count. -/
structure EnrollM where
  success : Bool
  done : Bool
  state : ENROLL_STATE
  sess : Session
  k : Nat
deriving DecidableEq

/-- Finger-removal polling loop of the `REMOVE_FINGER` state:
`for (i = 0; i < 5 && !isFingerPressed(); ++i);`.  The loop guard `i < 5`
is carried as the structurally decreasing count `remaining = 5 - i` of
attempts left.  Returns the final value of `i`, the session after the last
`isFingerPressed` call, and the next exchange index. -/
def pollFinger (oracle : Nat → RecvOutcome) : Nat → Nat → Session → Nat →
    Nat × Session × Nat
  | 0, i, s, k => (i, s, k)
  | remaining + 1, i, s, k =>
    let r := Cmd.isFingerPressed oracle s k
    if r.2.1 then (i, r.1, r.2.2)
    else pollFinger oracle remaining (i + 1) r.1 r.2.2

/-- One iteration of the `while (!done)` loop of
`bool FingerprintModule::enrollSequence(uint32_t, writeFunc)`.  A machine
with `done = true` is left unchanged (the loop has exited).  Note two
faithful quirks of the source: in `CAPTURE` and `ENROLL`, a failed
`powerCMOS` sets `success = false, done = true` but execution still falls
through to `captureFingerprint` / `createEnrollmentTemplate`, and the
progress-sink calls have no effect on the transition. -/
def enrollStep (oracle : Nat → RecvOutcome) (m : EnrollM) : EnrollM :=
  if m.done then m else
  match m.state with
  | .START =>
    let r := Cmd.startEnrollment oracle m.sess m.k
    if r.2.1 then { m with sess := r.1, k := r.2.2, state := .REMOVE_FINGER }
    else { m with sess := r.1, k := r.2.2, success := false, done := true }
  | .CAPTURE =>
    let r1 := Cmd.powerCMOS oracle m.sess m.k
    let m1 := if r1.2.1 then m else { m with success := false, done := true }
    let r2 := Cmd.captureFingerprint oracle r1.1 r1.2.2
    let m2 := { m1 with sess := r2.1, k := r2.2.2 }
    if r2.2.1 then { m2 with state := .ENROLL }
    else if r2.1.mRespParam = NACK_COMM_ERR then { m2 with success := false, done := true }
    else m2
  | .ENROLL =>
    let r1 := Cmd.powerCMOS oracle m.sess m.k
    let m1 := if r1.2.1 then m else { m with success := false, done := true }
    let r2 := Cmd.createEnrollmentTemplate oracle r1.1 r1.2.2
    let m2 := { m1 with sess := r2.1, k := r2.2.2 }
    if r2.2.1 then
      if r2.1.mEnrollmentStage = 3 then { m2 with state := .COMPLETE }
      else { m2 with state := .REMOVE_FINGER }
    else if r2.1.mRespParam = NACK_ENROLL_FAILED ∨ r2.1.mRespParam = NACK_BAD_FINGER then
      { m2 with state := .CAPTURE }
    else { m2 with success := false, done := true }
  | .COMPLETE => { m with done := true }
  | .REMOVE_FINGER =>
    let r := pollFinger oracle 5 0 m.sess m.k
    let m1 := { m with sess := r.2.1, k := r.2.2 }
    if r.1 = 5 then
      if r.2.1.mRespParam = NACK_FINGER_IS_NOT_PRESSED then { m1 with state := .CAPTURE }
      else { m1 with success := false, done := true }
    else m1

/-- Machine state at entry of `enrollSequence` (locals
`success = true; done = false; state = START`), starting from session `s`
and exchange count 0. -/
def enrollInit (s : Session) : EnrollM :=
  { success := true, done := false, state := .START, sess := s, k := 0 }

/-- Iterate `n` loop iterations of `enrollSequence`. -/
def enrollRun (oracle : Nat → RecvOutcome) (m : EnrollM) : Nat → EnrollM
  | 0 => m
  | n + 1 => enrollRun oracle (enrollStep oracle m) n

/-- The `while (!done)` loop of `enrollSequence` terminates for the device
behaviour `oracle`, started from session `s`: after some finite number of
iterations `done` becomes true. -/
def enrollTerminates (oracle : Nat → RecvOutcome) (s : Session) : Prop :=
  ∃ n, (enrollRun oracle (enrollInit s) n).done = true

/-- Every retry attempt of a receive call runs out of bytes before a
complete packet: `recvResponsePkt` finds no packet in any attempt's
arrivals. -/
def allAttemptsFail (arrivals : Nat → List Nat) : Prop :=
  ∀ i, scanPkt (arrivals i) = none

/-- Arrival family in which no byte ever arrives. -/
def emptyArrivals : Nat → List Nat := fun _ => []

/-- Modelled from the spec: the little-endian (least-significant byte
first) layout of the first 10 bytes of a command packet, used to state what
`send` actually produces.  Start marker `0x55 0xAA`, device identifier
`0x0001` transmitted low byte first, then the four parameter bytes from
least to most significant, then the two command-code bytes from least to
most significant. -/
def cmdPktBody (cmd param : Nat) : List Nat :=
  [0x55, 0xAA, 0x01, 0x00,
   param % 256, param / 256 % 256, param / 65536 % 256, param / 16777216 % 256,
   cmd % 256, cmd / 256 % 256]

/-- Concrete well-formed 12-byte ACK response packet (status byte `0x30`,
parameter 0, correct checksum `0x0130` stored low byte first). -/
def demoRespPkt : List Nat :=
  [0x55, 0xAA, 0x01, 0x00, 0x00, 0x00, 0x00, 0x00, 0x30, 0x00, 0x30, 0x01]

/-- Concrete 12-byte response packet with correct checksum whose status
byte is `0x32`, i.e. neither `ACK` (`0x30`) nor `NACK` (`0x31`). -/
def oddStatusPkt : List Nat :=
  [0x55, 0xAA, 0x01, 0x00, 0x00, 0x00, 0x00, 0x00, 0x32, 0x00, 0x32, 0x01]

/-- Concrete well-formed 12-byte NACK response packet (status byte `0x31`,
error parameter `0x1012` transmitted low byte first, checksum `0x0153`). -/
def nackRespPkt : List Nat :=
  [0x55, 0xAA, 0x01, 0x00, 0x12, 0x10, 0x00, 0x00, 0x31, 0x00, 0x53, 0x01]

/-- Concrete 12-byte response packet whose transmitted checksum `0xFFFF`
does not match the computed checksum `0x0130`. -/
def badChkPkt : List Nat :=
  [0x55, 0xAA, 0x01, 0x00, 0x00, 0x00, 0x00, 0x00, 0x30, 0x00, 0xFF, 0xFF]

/-- Concrete data-packet byte stream (payload size 0, total size 6) whose
transmitted checksum `0xFFFF` does not match the computed `0x00FF`. -/
def badChkDataStream : List Nat :=
  [0x5A, 0xA5, 0x00, 0x00, 0xFF, 0xFF]

/-- Device behaviour that keeps `enrollSequence` looping forever: the
enrollment start is acknowledged, the five finger-removal polls report
"finger not pressed" (ACK with nonzero parameter), and from then on every
CMOS command is acknowledged while every capture is rejected with
`NACK_FINGER_IS_NOT_PRESSED` — a recoverable error, so the machine stays in
`CAPTURE` indefinitely. -/
def enrollLoopOracle : Nat → RecvOutcome := fun k =>
  if k = 0 then .ackOk 0
  else if k ≤ 5 then .ackOk 1
  else if k % 2 = 0 then .ackOk 0
  else .nackErr NACK_FINGER_IS_NOT_PRESSED

/-- Device behaviour for the illumination-failure scenario: enrollment
start acknowledged, five "not pressed" polls, then the `powerCMOS(true)`
exchange (index 6) fails with `NACK_DEV_ERR` and the following capture
exchange (index 7) is acknowledged with parameter 0. -/
def cmosFailOracle : Nat → RecvOutcome := fun k =>
  if k = 0 then .ackOk 0
  else if k ≤ 5 then .ackOk 1
  else if k = 6 then .nackErr NACK_DEV_ERR
  else .ackOk 0

/-- Device behaviour that acknowledges every exchange with parameter 0. -/
def ackZeroOracle : Nat → RecvOutcome := fun _ => .ackOk 0

/-- Device behaviour that acknowledges every exchange with parameter 5. -/
def ackNonzeroOracle : Nat → RecvOutcome := fun _ => .ackOk 5

/-- Concrete machine state in `CAPTURE` with six exchanges already
performed, as reached by `cmosFailOracle` after two loop iterations. -/
def captureAtSix : EnrollM :=
  { success := true, done := false, state := .CAPTURE,
    sess := { mRespStatus := false, mRespParam := NACK_FINGER_IS_NOT_PRESSED,
              mEnrollmentStage := 0, mRespPkt := [] },
    k := 6 }

/-! Helper lemmas: bit-level arithmetic for the endianness functions. -/

theorem land_byte_mask (v k : Nat) :
    v &&& ((2 ^ 8 - 1) <<< k) = v / 2 ^ k % 2 ^ 8 * 2 ^ k := by
  have hr : v / 2 ^ k % 2 ^ 8 * 2 ^ k = ((v >>> k) % 2 ^ 8) <<< k := by
    rw [Nat.shiftLeft_eq, Nat.shiftRight_eq_div_pow]
  apply Nat.eq_of_testBit_eq
  intro i
  rw [hr]
  simp only [Nat.testBit_and, Nat.testBit_shiftLeft, Nat.testBit_mod_two_pow,
    Nat.testBit_shiftRight, Nat.testBit_two_pow_sub_one]
  by_cases hk : k ≤ i
  · have hik : k + (i - k) = i := by omega
    simp [hk, hik, Bool.and_comm]
  · simp [hk]

theorem land_FF (v : Nat) : v &&& 0x00FF = v % 256 := by
  have h := land_byte_mask v 0
  norm_num at h
  exact h

theorem land_FF00 (v : Nat) : v &&& 0xFF00 = v / 256 % 256 * 256 := by
  have h := land_byte_mask v 8
  norm_num at h
  exact h

theorem land_FF0000 (v : Nat) : v &&& 0xFF0000 = v / 65536 % 256 * 65536 := by
  have h := land_byte_mask v 16
  norm_num at h
  exact h

theorem land_FF000000 (v : Nat) : v &&& 0xFF000000 = v / 16777216 % 256 * 16777216 := by
  have h := land_byte_mask v 24
  norm_num at h
  exact h

theorem byte_decomp16 (v : Nat) :
    v % 65536 = 256 * (v / 256 % 256) + v % 256 := by
  have h1 := Nat.div_add_mod v 256
  have h2 := Nat.div_add_mod (v / 256) 256
  have e1 : v / 256 / 256 = v / 65536 := by rw [Nat.div_div_eq_div_mul]
  have h3 := Nat.div_add_mod v 65536
  omega

theorem byte_decomp32 (v : Nat) :
    v % 4294967296 = 16777216 * (v / 16777216 % 256) + 65536 * (v / 65536 % 256) +
      256 * (v / 256 % 256) + v % 256 := by
  have h1 := Nat.div_add_mod v 256
  have h2 := Nat.div_add_mod (v / 256) 256
  have h3 := Nat.div_add_mod (v / 65536) 256
  have h4 := Nat.div_add_mod (v / 16777216) 256
  have e1 : v / 256 / 256 = v / 65536 := by rw [Nat.div_div_eq_div_mul]
  have e2 : v / 65536 / 256 = v / 16777216 := by rw [Nat.div_div_eq_div_mul]
  have e3 : v / 16777216 / 256 = v / 4294967296 := by rw [Nat.div_div_eq_div_mul]
  have h5 := Nat.div_add_mod v 4294967296
  omega

theorem or4 (z y x b : Nat) (hb : b < 256) (hx : x < 256) (hy : y < 256) :
    ((16777216 * z ||| b) ||| 65536 * y) ||| 256 * x =
    16777216 * z + 65536 * y + 256 * x + b := by
  have e8 : (256 : Nat) = 2 ^ 8 := by norm_num
  have e16 : (65536 : Nat) = 2 ^ 16 := by norm_num
  have e24 : (16777216 : Nat) = 2 ^ 24 := by norm_num
  rw [e8, e16, e24, Nat.or_assoc, Nat.or_assoc, Nat.or_comm b _, Nat.or_assoc]
  rw [← Nat.mul_add_lt_is_or (show b < 2 ^ 8 by omega) x]
  rw [← Nat.mul_add_lt_is_or (show 2 ^ 8 * x + b < 2 ^ 16 by omega) y]
  rw [← Nat.mul_add_lt_is_or (show 2 ^ 16 * y + (2 ^ 8 * x + b) < 2 ^ 24 by omega) z]
  omega

theorem flip16_arith (v : Nat) :
    flipEndianness16 v = 256 * (v % 256) + v / 256 % 256 := by
  unfold flipEndianness16
  rw [land_FF, land_FF00, Nat.shiftLeft_eq, Nat.shiftRight_eq_div_pow]
  have hdiv : v / 256 % 256 * 256 / 2 ^ 8 = v / 256 % 256 := by omega
  have hmul : v % 256 * 2 ^ 8 = 2 ^ 8 * (v % 256) := Nat.mul_comm _ _
  rw [hdiv, hmul, ← Nat.mul_add_lt_is_or (show v / 256 % 256 < 2 ^ 8 by omega) (v % 256)]

theorem flip32_arith (v : Nat) :
    flipEndianness32 v = 16777216 * (v % 256) + 65536 * (v / 256 % 256) +
      256 * (v / 65536 % 256) + v / 16777216 % 256 := by
  unfold flipEndianness32
  rw [land_FF, land_FF00, land_FF0000, land_FF000000, Nat.shiftLeft_eq, Nat.shiftLeft_eq,
    Nat.shiftRight_eq_div_pow, Nat.shiftRight_eq_div_pow]
  have d1 : v / 16777216 % 256 * 16777216 / 2 ^ 24 = v / 16777216 % 256 := by omega
  have d2 : v / 65536 % 256 * 65536 / 2 ^ 8 = 256 * (v / 65536 % 256) := by omega
  have m1 : v % 256 * 2 ^ 24 = 16777216 * (v % 256) := by omega
  have m2 : v / 256 % 256 * 256 * 2 ^ 8 = 65536 * (v / 256 % 256) := by omega
  rw [d1, d2, m1, m2]
  rw [or4 (v % 256) (v / 256 % 256) (v / 65536 % 256) (v / 16777216 % 256)
    (by omega) (by omega) (by omega)]

theorem split16_flip16 (v : Nat) :
    split16 (flipEndianness16 v) = [v % 256, v / 256 % 256] := by
  rw [flip16_arith]
  generalize hb0 : v % 256 = b0
  generalize hb1 : v / 256 % 256 = b1
  have h0 : b0 < 256 := by omega
  have h1 : b1 < 256 := by omega
  unfold split16
  rw [Nat.shiftRight_eq_div_pow, land_FF, land_FF,
    show (2 : Nat) ^ 8 = 256 from by norm_num]
  have e1 : (256 * b0 + b1) / 256 % 256 = b0 := by omega
  have e2 : (256 * b0 + b1) % 256 = b1 := by omega
  rw [e1, e2]

theorem split32_flip32 (v : Nat) :
    split32 (flipEndianness32 v) = [v % 256, v / 256 % 256, v / 65536 % 256,
      v / 16777216 % 256] := by
  rw [flip32_arith]
  generalize hb0 : v % 256 = b0
  generalize hb1 : v / 256 % 256 = b1
  generalize hb2 : v / 65536 % 256 = b2
  generalize hb3 : v / 16777216 % 256 = b3
  have h0 : b0 < 256 := by omega
  have h1 : b1 < 256 := by omega
  have h2 : b2 < 256 := by omega
  have h3 : b3 < 256 := by omega
  unfold split32
  rw [Nat.shiftRight_eq_div_pow, Nat.shiftRight_eq_div_pow, Nat.shiftRight_eq_div_pow,
    land_FF, land_FF, land_FF, land_FF,
    show (2 : Nat) ^ 24 = 16777216 from by norm_num,
    show (2 : Nat) ^ 16 = 65536 from by norm_num,
    show (2 : Nat) ^ 8 = 256 from by norm_num]
  have e1 : (16777216 * b0 + 65536 * b1 + 256 * b2 + b3) / 16777216 % 256 = b0 := by omega
  have e2 : (16777216 * b0 + 65536 * b1 + 256 * b2 + b3) / 65536 % 256 = b1 := by omega
  have e3 : (16777216 * b0 + 65536 * b1 + 256 * b2 + b3) / 256 % 256 = b2 := by omega
  have e4 : (16777216 * b0 + 65536 * b1 + 256 * b2 + b3) % 256 = b3 := by omega
  rw [e1, e2, e3, e4]

theorem extract16 (b0 b1 : Nat) (h0 : b0 < 256) (h1 : b1 < 256) :
    (256 * b0 + b1) % 256 = b1 ∧ (256 * b0 + b1) / 256 % 256 = b0 := by
  constructor <;> omega

theorem extract32 (a b c d : Nat) (ha : a < 256) (hb : b < 256) (hc : c < 256)
    (hd : d < 256) :
    (16777216 * a + 65536 * b + 256 * c + d) % 256 = d ∧
    (16777216 * a + 65536 * b + 256 * c + d) / 256 % 256 = c ∧
    (16777216 * a + 65536 * b + 256 * c + d) / 65536 % 256 = b ∧
    (16777216 * a + 65536 * b + 256 * c + d) / 16777216 % 256 = a := by
  refine ⟨?_, ?_, ?_, ?_⟩ <;> omega

/-! Helper lemmas: the 16-bit checksum accumulator. -/

theorem chkFold_lt (l : List Nat) :
    ∀ acc, acc < 65536 → l.foldl (fun chkSum b => (chkSum + b) % 65536) acc < 65536 := by
  induction l with
  | nil => intro acc h; exact h
  | cons b t ih =>
    intro acc h
    exact ih ((acc + b) % 65536) (Nat.mod_lt _ (by norm_num))

theorem computeCheckSum_lt (arr : List Nat) (size : Nat) :
    computeCheckSum arr size < 65536 :=
  chkFold_lt (arr.take size) 0 (by norm_num)

theorem chkFold_eq (l : List Nat) :
    ∀ acc, acc < 65536 →
      l.foldl (fun chkSum b => (chkSum + b) % 65536) acc = (acc + l.sum) % 65536 := by
  induction l with
  | nil => intro acc h; simp [Nat.mod_eq_of_lt h]
  | cons b t ih =>
    intro acc h
    rw [List.foldl_cons, ih ((acc + b) % 65536) (Nat.mod_lt _ (by norm_num)),
      Nat.mod_add_mod, List.sum_cons, Nat.add_assoc]

/-! Claim theorems. -/

/-- Claim C9: for every byte array `b` and every length `n` not exceeding
the array's size, `computeCheckSum(b, n)` equals the arithmetic sum of
`b[0], ..., b[n-1]` modulo 65536, with 16-bit overflow wrapping rather
than erroring. -/
theorem C9_checksum_is_sum_mod (arr : List Nat) (n : Nat) (h : n ≤ arr.length) :
    computeCheckSum arr n = (arr.take n).sum % 65536 := by
  unfold computeCheckSum
  rw [chkFold_eq _ 0 (by norm_num), Nat.zero_add]

/-- Witness for C9 at a concrete input whose byte sum overflows 16 bits. -/
theorem C9_witness :
    2 ≤ ([40000, 30000] : List Nat).length ∧
    computeCheckSum [40000, 30000] 2 = (([40000, 30000] : List Nat).take 2).sum % 65536 :=
  ⟨by decide, C9_checksum_is_sum_mod [40000, 30000] 2 (by decide)⟩

/-- Claim C8: `flipEndianness` is an involution at both widths — for every
16-bit value `v`, `flipEndianness(flipEndianness(v)) == v`, and for every
32-bit value `w`, `flipEndianness(flipEndianness(w)) == w`. -/
theorem C8_flip_involution (v w : Nat) (hv : v < 65536) (hw : w < 4294967296) :
    flipEndianness16 (flipEndianness16 v) = v ∧
    flipEndianness32 (flipEndianness32 w) = w := by
  constructor
  · have hd := byte_decomp16 v
    rw [Nat.mod_eq_of_lt hv] at hd
    rw [flip16_arith, flip16_arith]
    obtain ⟨e1, e2⟩ := extract16 (v % 256) (v / 256 % 256) (by omega) (by omega)
    rw [e1, e2]
    omega
  · have hd := byte_decomp32 w
    rw [Nat.mod_eq_of_lt hw] at hd
    rw [flip32_arith, flip32_arith]
    obtain ⟨e1, e2, e3, e4⟩ := extract32 (w % 256) (w / 256 % 256) (w / 65536 % 256)
      (w / 16777216 % 256) (by omega) (by omega) (by omega) (by omega)
    rw [e1, e2, e3, e4]
    omega

/-- Witness for C8 at concrete 16-bit and 32-bit values. -/
theorem C8_witness :
    (0x1234 : Nat) < 65536 ∧ (0xA1B2C3D4 : Nat) < 4294967296 ∧
    flipEndianness16 (flipEndianness16 0x1234) = 0x1234 ∧
    flipEndianness32 (flipEndianness32 0xA1B2C3D4) = 0xA1B2C3D4 :=
  ⟨by decide, by decide,
   (C8_flip_involution 0x1234 0xA1B2C3D4 (by decide) (by decide)).1,
   (C8_flip_involution 0x1234 0xA1B2C3D4 (by decide) (by decide)).2⟩

/-- Claim C2 (amended): for every command code and parameter, the 12-byte
command packet produced by `send` places each multi-byte field — the 2-byte
device identifier `0x0001`, the 4-byte parameter, the 2-byte command code,
and the 2-byte checksum over the first 10 bytes — into the packet in
LITTLE-endian byte order (least significant byte first), the net effect of
flipping each value and then splitting it most-significant-byte first. -/
theorem C2_send_little_endian (cmd param : Nat) :
    send cmd param true =
      cmdPktBody cmd param ++
        [computeCheckSum (cmdPktBody cmd param) 10 % 256,
         computeCheckSum (cmdPktBody cmd param) 10 / 256] := by
  unfold send
  simp only [if_pos]
  rw [split32_flip32, split16_flip16]
  have hlist : [0x55, 0xAA, 0x01, 0x00] ++
      [param % 256, param / 256 % 256, param / 65536 % 256, param / 16777216 % 256] ++
      [cmd % 256, cmd / 256 % 256] = cmdPktBody cmd param := by
    simp [cmdPktBody]
  rw [hlist, split16_flip16]
  have hc : computeCheckSum (cmdPktBody cmd param) 10 / 256 % 256 =
      computeCheckSum (cmdPktBody cmd param) 10 / 256 := by
    have := computeCheckSum_lt (cmdPktBody cmd param) 10
    omega
  rw [hc]

/-- Counterexample to claim C2 as stated: the packet for `send(CMD_CMOS_LED, 1)`
has the device identifier low byte `0x01` at index 2 (big-endian would put
the most significant byte `0x00` first), the command code low byte `0x12`
at index 8 (big-endian would put `0x00` first), and the checksum `0x0113`
low byte `0x13` at index 10 (big-endian would put `0x01` first). -/
theorem C2_counterexample :
    send 0x12 1 true =
      [0x55, 0xAA, 0x01, 0x00, 0x01, 0x00, 0x00, 0x00, 0x12, 0x00, 0x13, 0x01] ∧
    (send 0x12 1 true).getD 2 0 ≠ 0x00 ∧
    (send 0x12 1 true).getD 8 0 ≠ 0x00 ∧
    (send 0x12 1 true).getD 10 0 ≠ 0x01 := by decide

/-! Helper lemmas: the response-packet scanning loop. -/

theorem scanPkt_cons_ne (b : Nat) (rest : List Nat) (hb : b ≠ 0x55) :
    scanPkt (b :: rest) = scanPkt rest := by
  rw [scanPkt.eq_def]
  simp [hb]

theorem scanPkt_append_ne (garbage rest : List Nat) (hg : 0x55 ∉ garbage) :
    scanPkt (garbage ++ rest) = scanPkt rest := by
  induction garbage with
  | nil => rfl
  | cons b g ih =>
    rw [List.mem_cons, not_or] at hg
    rw [List.cons_append, scanPkt_cons_ne b (g ++ rest) (Ne.symm hg.1), ih hg.2]

theorem scanPkt_wellFormed (pkt : List Nat) (h12 : pkt.length = 12)
    (h0 : pkt.getD 0 0 = 0x55) (h1 : pkt.getD 1 0 = 0xAA) :
    scanPkt pkt = some (pkt, []) := by
  rcases pkt with _ | ⟨a, _ | ⟨b, body⟩⟩
  · simp at h12
  · simp at h12
  · simp only [List.getD_cons_zero] at h0
    simp only [List.getD_cons_succ, List.getD_cons_zero] at h1
    subst h0
    subst h1
    have hlen : body.length = 10 := by
      simp only [List.length_cons] at h12
      omega
    rw [scanPkt.eq_def]
    simp [hlen, List.take_of_length_le hlen.le, List.drop_eq_nil_of_le hlen.le]

/-- Claim C1 (amended): a receive call fed leading garbage bytes followed by
one complete, well-formed 12-byte response packet behaves exactly as if it
had been fed the packet alone — it locates the `0x55 0xAA` marker, decodes
the packet and returns success — PROVIDED no garbage byte equals `0x55`:
the scanner consumes the byte after any `0x55` candidate, so a `0x55` in
the garbage can swallow the real start marker. -/
theorem C1_resync_no_marker_in_garbage (garbage pkt : List Nat) (s : Session)
    (hg : 0x55 ∉ garbage) (h12 : pkt.length = 12) (h0 : pkt.getD 0 0 = 0x55)
    (h1 : pkt.getD 1 0 = 0xAA)
    (hchk : computeCheckSum pkt 10 = givenChkSumOf pkt) :
    recvResponsePkt (garbage ++ pkt) s = recvResponsePkt pkt s ∧
    (recvResponsePkt pkt s).2.1 = true := by
  have hs := scanPkt_wellFormed pkt h12 h0 h1
  constructor
  · unfold recvResponsePkt
    rw [scanPkt_append_ne garbage pkt hg]
  · unfold recvResponsePkt
    rw [hs]
    dsimp only
    split
    · rfl
    · split <;> rfl

/-- Witness for C1 (amended): one garbage byte `0x00` before a valid ACK
packet is skipped and the packet is decoded. -/
theorem C1_witness :
    (0x55 : Nat) ∉ ([0x00] : List Nat) ∧
    demoRespPkt.length = 12 ∧ demoRespPkt.getD 0 0 = 0x55 ∧
    demoRespPkt.getD 1 0 = 0xAA ∧
    computeCheckSum demoRespPkt 10 = givenChkSumOf demoRespPkt ∧
    (recvResponsePkt ([0x00] ++ demoRespPkt) initSession =
      recvResponsePkt demoRespPkt initSession ∧
    (recvResponsePkt demoRespPkt initSession).2.1 = true) :=
  ⟨by decide, by decide, by decide, by decide, by decide,
   C1_resync_no_marker_in_garbage [0x00] demoRespPkt initSession
     (by decide) (by decide) (by decide) (by decide) (by decide)⟩

/-- Counterexample to claim C1 as stated: one garbage byte `0x55` followed
by a complete, well-formed response packet (all bytes available at once)
makes `recvResponsePkt` consume the packet's own `0x55` as the second
candidate byte, miss the marker, drain the buffer and fail with
`NACK_NOT_RECVD` instead of decoding the packet. -/
theorem C1_counterexample :
    demoRespPkt.length = 12 ∧ demoRespPkt.getD 0 0 = 0x55 ∧
    demoRespPkt.getD 1 0 = 0xAA ∧
    computeCheckSum demoRespPkt 10 = givenChkSumOf demoRespPkt ∧
    (recvResponsePkt ([0x55] ++ demoRespPkt) initSession).2.1 = false ∧
    (recvResponsePkt ([0x55] ++ demoRespPkt) initSession).1.mRespStatus = false ∧
    (recvResponsePkt ([0x55] ++ demoRespPkt) initSession).1.mRespParam =
      NACK_NOT_RECVD := by decide

/-- Claim C3 (amended): a received packet whose recomputed checksum differs
from the transmitted checksum is never accepted as valid, but the two
receive paths report it differently: `recvResponsePkt` records the
communications error in the session state (`mRespStatus = false`,
`mRespParam = NACK_COMM_ERR`) yet RETURNS TRUE (its return value only says
a complete packet was framed), while `recvDataPkt` returns false but
records nothing in the session state. -/
theorem C3_checksum_mismatch (stream : List Nat) (s : Session)
    (buff leftover : List Nat) (size : Nat) (dstream dpkt dleftover : List Nat)
    (hscan : scanPkt stream = some (buff, leftover))
    (hchk : computeCheckSum buff 10 ≠ givenChkSumOf buff)
    (hdscan : scanDataPkt (size + 6) dstream = some (dpkt, dleftover))
    (hdchk : computeCheckSum dpkt (size + 4) ≠ dataGivenChkSumOf (size + 6) dpkt) :
    recvResponsePkt stream s =
      ({ s with mRespStatus := false, mRespParam := NACK_COMM_ERR }, true, leftover) ∧
    recvDataPkt size dstream = (false, dpkt) := by
  constructor
  · unfold recvResponsePkt
    rw [hscan]
    dsimp only
    rw [if_pos hchk]
  · unfold recvDataPkt
    dsimp only
    rw [hdscan]
    dsimp only
    have h4 : size + 6 - 2 = size + 4 := by omega
    rw [h4, if_pos hdchk]

/-- Witness for C3 (amended) at a concrete bad-checksum response packet and
a concrete bad-checksum data packet. -/
theorem C3_witness :
    scanPkt badChkPkt = some (badChkPkt, []) ∧
    computeCheckSum badChkPkt 10 ≠ givenChkSumOf badChkPkt ∧
    scanDataPkt 6 badChkDataStream = some (badChkDataStream, []) ∧
    computeCheckSum badChkDataStream 4 ≠ dataGivenChkSumOf 6 badChkDataStream ∧
    (recvResponsePkt badChkPkt initSession =
      ({ initSession with mRespStatus := false, mRespParam := NACK_COMM_ERR },
       true, []) ∧
    recvDataPkt 0 badChkDataStream = (false, badChkDataStream)) :=
  ⟨by decide, by decide, by decide, by decide,
   C3_checksum_mismatch badChkPkt initSession badChkPkt [] 0 badChkDataStream
     badChkDataStream [] (by decide) (by decide) (by decide) (by decide)⟩

/-- Counterexample to claim C3 as stated: on a complete response packet with
a checksum mismatch, `recvResponsePkt` does NOT return failure — it returns
true (while recording `NACK_COMM_ERR` in the session state). -/
theorem C3_counterexample :
    computeCheckSum badChkPkt 10 ≠ givenChkSumOf badChkPkt ∧
    (recvResponsePkt badChkPkt initSession).2.1 = true ∧
    (recvResponsePkt badChkPkt initSession).1.mRespStatus = false ∧
    (recvResponsePkt badChkPkt initSession).1.mRespParam = NACK_COMM_ERR := by decide

/-- Claim C7 (amended): for a complete, checksum-valid response packet,
`recvResponsePkt` classifies it as a negative acknowledgement exactly when
its status byte equals the NACK code `0x31`, storing the 4-byte parameter
as an error code with the response status set to failure; EVERY other
status byte — not only the ACK code `0x30` — is treated as an
acknowledgement (`mRespStatus = true`). -/
theorem C7_status_decoding (stream : List Nat) (s : Session)
    (buff leftover : List Nat)
    (hscan : scanPkt stream = some (buff, leftover))
    (hchk : computeCheckSum buff 10 = givenChkSumOf buff) :
    ((recvResponsePkt stream s).1.mRespStatus = false ↔ buff.getD 8 0 = 0x31) ∧
    (buff.getD 8 0 = 0x31 →
      recvResponsePkt stream s =
        ({ s with mRespStatus := false, mRespParam := respParamOf buff },
         true, leftover)) ∧
    (buff.getD 8 0 ≠ 0x31 →
      (recvResponsePkt stream s).1.mRespStatus = true ∧
      (recvResponsePkt stream s).1.mRespParam = respParamOf buff) := by
  unfold recvResponsePkt
  rw [hscan]
  dsimp only
  rw [if_neg (show ¬computeCheckSum buff 10 ≠ givenChkSumOf buff from by simp [hchk])]
  by_cases h8 : buff.getD 8 0 = 0x31
  · rw [if_pos h8]
    exact ⟨iff_of_true rfl h8, fun _ => rfl, fun hc => absurd h8 hc⟩
  · rw [if_neg h8]
    exact ⟨iff_of_false (by simp) h8, fun hc => absurd hc h8, fun _ => ⟨rfl, rfl⟩⟩

/-- Witness for C7 (amended) at a concrete checksum-valid NACK packet. -/
theorem C7_witness :
    scanPkt nackRespPkt = some (nackRespPkt, []) ∧
    computeCheckSum nackRespPkt 10 = givenChkSumOf nackRespPkt ∧
    nackRespPkt.getD 8 0 = 0x31 ∧
    recvResponsePkt nackRespPkt initSession =
      ({ initSession with mRespStatus := false, mRespParam := respParamOf nackRespPkt },
       true, []) :=
  ⟨by decide, by decide, by decide,
   (C7_status_decoding nackRespPkt initSession nackRespPkt []
     (by decide) (by decide)).2.1 (by decide)⟩

/-- Counterexample to claim C7 as stated: a checksum-valid packet whose
status byte is `0x32` — not the ACK code `0x30` — is still classified as an
acknowledgement (`mRespStatus = true`), so acknowledgement is not
"exactly when the status byte equals 0x30". -/
theorem C7_counterexample :
    computeCheckSum oddStatusPkt 10 = givenChkSumOf oddStatusPkt ∧
    oddStatusPkt.getD 8 0 ≠ 0x30 ∧ oddStatusPkt.getD 8 0 ≠ 0x31 ∧
    (recvResponsePkt oddStatusPkt initSession).1.mRespStatus = true := by decide

/-! Helper lemmas: the command layer. -/

theorem applyRecv_stage (s : Session) (o : RecvOutcome) :
    (applyRecv s o).mEnrollmentStage = s.mEnrollmentStage := by
  cases o <;> rfl

theorem applyRecv_status (s : Session) (o : RecvOutcome) :
    (applyRecv s o).mRespStatus = true ↔ ∃ p, o = RecvOutcome.ackOk p := by
  cases o <;> simp [applyRecv]

/-- Claim C5: within one enrollment attempt, `mEnrollmentStage` changes
only monotonically 0→1→2→3 — it is incremented by exactly 1 only by a
successful `createEnrollmentTemplate` call (from a value in 0..2), it is
set back to 0 only by a `startEnrollment` call whose response is a success,
a failed `createEnrollmentTemplate` (or failed `startEnrollment`) leaves it
unchanged, and the other operations of the enrollment workflow
(`powerCMOS`, `captureFingerprint`, `isFingerPressed`) never modify it. -/
theorem C5_stage_monotonic (oracle : Nat → RecvOutcome) (s : Session) (k : Nat) :
    ((Cmd.createEnrollmentTemplate oracle s k).2.1 = true →
      s.mEnrollmentStage ≤ 2 ∧
      (Cmd.createEnrollmentTemplate oracle s k).1.mEnrollmentStage =
        s.mEnrollmentStage + 1) ∧
    ((Cmd.createEnrollmentTemplate oracle s k).2.1 = false →
      (Cmd.createEnrollmentTemplate oracle s k).1.mEnrollmentStage =
        s.mEnrollmentStage) ∧
    ((Cmd.startEnrollment oracle s k).2.1 = true →
      (Cmd.startEnrollment oracle s k).1.mEnrollmentStage = 0) ∧
    ((Cmd.startEnrollment oracle s k).2.1 = false →
      (Cmd.startEnrollment oracle s k).1.mEnrollmentStage = s.mEnrollmentStage) ∧
    (Cmd.powerCMOS oracle s k).1.mEnrollmentStage = s.mEnrollmentStage ∧
    (Cmd.captureFingerprint oracle s k).1.mEnrollmentStage = s.mEnrollmentStage ∧
    (Cmd.isFingerPressed oracle s k).1.mEnrollmentStage = s.mEnrollmentStage := by
  refine ⟨?_, ?_, ?_, ?_, ?_, ?_, ?_⟩
  · intro h
    unfold Cmd.createEnrollmentTemplate at h ⊢
    split at h
    next heq =>
      constructor
      · omega
      · dsimp only at h ⊢
        split at h
        next hst => simp [hst, applyRecv_stage]
        next hst => exact absurd h hst
    next heq =>
      constructor
      · omega
      · dsimp only at h ⊢
        split at h
        next hst => simp [hst, applyRecv_stage, heq]
        next hst => exact absurd h hst
    next heq =>
      constructor
      · omega
      · dsimp only at h ⊢
        split at h
        next hst => simp [hst, applyRecv_stage, heq]
        next hst => exact absurd h hst
    next n heq => simp at h
  · intro h
    unfold Cmd.createEnrollmentTemplate at h ⊢
    split at h
    next heq =>
      dsimp only at h ⊢
      split at h
      next hst => simp [hst] at h
      next hst => simp [hst, applyRecv_stage]
    next heq =>
      dsimp only at h ⊢
      split at h
      next hst => simp [hst] at h
      next hst => simp [hst, applyRecv_stage]
    next heq =>
      dsimp only at h ⊢
      split at h
      next hst => simp [hst] at h
      next hst => simp [hst, applyRecv_stage]
    next n heq => rfl
  · intro h
    unfold Cmd.startEnrollment at h ⊢
    dsimp only at h ⊢
    split at h
    next hst => simp [hst]
    next hst => exact absurd h hst
  · intro h
    unfold Cmd.startEnrollment at h ⊢
    dsimp only at h ⊢
    split at h
    next hst => simp [hst] at h
    next hst => simp [hst, applyRecv_stage]
  · unfold Cmd.powerCMOS
    simp [applyRecv_stage]
  · unfold Cmd.captureFingerprint
    simp [applyRecv_stage]
  · unfold Cmd.isFingerPressed
    dsimp only
    split
    next hc => simp [applyRecv_stage]
    next hc => simp [applyRecv_stage]

/-- Witness for C5: with an always-acknowledging device, a
`createEnrollmentTemplate` call from stage 0 succeeds and the stage becomes
1. -/
theorem C5_witness :
    (Cmd.createEnrollmentTemplate ackZeroOracle initSession 0).2.1 = true ∧
    (initSession.mEnrollmentStage ≤ 2 ∧
     (Cmd.createEnrollmentTemplate ackZeroOracle initSession 0).1.mEnrollmentStage =
       initSession.mEnrollmentStage + 1) :=
  ⟨by decide, (C5_stage_monotonic ackZeroOracle initSession 0).1 (by decide)⟩

/-- Claim C10: `isFingerPressed` returns true exactly when the device
acknowledges with parameter 0; whenever the device acknowledges with any
nonzero parameter it overwrites the stored session state to failure with
error code `NACK_FINGER_IS_NOT_PRESSED` and returns false; and a caller
never observes a successful stored status together with a nonzero stored
parameter after this operation. -/
theorem C10_finger_pressed (oracle : Nat → RecvOutcome) (s : Session) (k : Nat) :
    ((Cmd.isFingerPressed oracle s k).2.1 = true ↔ oracle k = RecvOutcome.ackOk 0) ∧
    (∀ p, p ≠ 0 → oracle k = RecvOutcome.ackOk p →
      Cmd.isFingerPressed oracle s k =
        ({ s with mRespStatus := false, mRespParam := NACK_FINGER_IS_NOT_PRESSED },
         false, k + 1)) ∧
    ((Cmd.isFingerPressed oracle s k).1.mRespStatus = true →
      (Cmd.isFingerPressed oracle s k).1.mRespParam = 0) := by
  rcases ho : oracle k with _ | _ | e | p
  · refine ⟨?_, ?_, ?_⟩ <;> simp [Cmd.isFingerPressed, applyRecv, ho]
  · refine ⟨?_, ?_, ?_⟩ <;> simp [Cmd.isFingerPressed, applyRecv, ho]
  · refine ⟨?_, ?_, ?_⟩ <;> simp [Cmd.isFingerPressed, applyRecv, ho]
  · by_cases hp : p = 0
    · subst hp
      refine ⟨?_, ?_, ?_⟩ <;> simp [Cmd.isFingerPressed, applyRecv, ho]
      intro q hq h0q
      exact hq h0q.symm
    · refine ⟨?_, ?_, ?_⟩ <;>
        simp [Cmd.isFingerPressed, applyRecv, ho, hp] <;>
        intro q hq hpq <;> simp [hpq] at hp ⊢

/-- Witness for C10: a device ACK with nonzero parameter 5 makes
`isFingerPressed` overwrite the session with the finger-not-pressed error
and return false. -/
theorem C10_witness :
    (5 : Nat) ≠ 0 ∧ ackNonzeroOracle 0 = RecvOutcome.ackOk 5 ∧
    Cmd.isFingerPressed ackNonzeroOracle initSession 0 =
      ({ initSession with mRespStatus := false, mRespParam := NACK_FINGER_IS_NOT_PRESSED },
       false, 0 + 1) :=
  ⟨by decide, rfl,
   (C10_finger_pressed ackNonzeroOracle initSession 0).2.1 5 (by decide) rfl⟩

/-! Helper lemmas: the bounded receive retry loop. -/

theorem recvLoopGo_succ (arrivals : Nat → List Nat) (i f : Nat) (s : Session) :
    recvLoopGo arrivals i (f + 1) s =
      (let r := recvResponsePkt (arrivals i) s
       if r.2.1 then r.1 else recvLoopGo arrivals (i + 1) f r.1) := rfl

theorem recvLoopGo_notRecvd (arrivals : Nat → List Nat) (h : allAttemptsFail arrivals) :
    ∀ (fuel i : Nat) (s : Session),
      recvLoopGo arrivals i (fuel + 1) s =
        { s with mRespStatus := false, mRespParam := NACK_NOT_RECVD } := by
  intro fuel
  induction fuel with
  | zero =>
    intro i s
    simp [recvLoopGo, recvResponsePkt, h i]
  | succ f ih =>
    intro i s
    rw [recvLoopGo_succ]
    simp only [recvResponsePkt, h i]
    rw [ih]
    simp

/-- Claim C4 (amended): every single-exchange receive is bounded — the
retry loop polls `recvResponsePkt` at most `TIMEOUT` times, and if every
attempt runs out of bytes before a complete packet, the loop ends with the
not-received failure (`mRespStatus = false`, `mRespParam = NACK_NOT_RECVD`)
rather than waiting forever.  The `enrollSequence` workflow as a whole,
however, is NOT bounded: its while-loop can iterate forever when failures
keep being classified as recoverable (see the counterexample). -/
theorem C4_bounded_retry (arrivals : Nat → List Nat) (s : Session)
    (h : allAttemptsFail arrivals) :
    recvLoop arrivals s =
      { s with mRespStatus := false, mRespParam := NACK_NOT_RECVD } := by
  have hgo := recvLoopGo_notRecvd arrivals h 10 0 s
  simpa [recvLoop, TIMEOUT] using hgo

/-- Witness for C4 (amended): with no bytes ever arriving, the retry loop
terminates in the not-received failure state. -/
theorem C4_witness :
    allAttemptsFail emptyArrivals ∧
    recvLoop emptyArrivals initSession =
      { initSession with mRespStatus := false, mRespParam := NACK_NOT_RECVD } :=
  ⟨fun _ => rfl, C4_bounded_retry emptyArrivals initSession (fun _ => rfl)⟩

/-! Helper lemmas: non-termination of `enrollSequence` under
`enrollLoopOracle`. -/

theorem enrollRun_add (oracle : Nat → RecvOutcome) (a : Nat) :
    ∀ (m : EnrollM) (b : Nat),
      enrollRun oracle m (a + b) = enrollRun oracle (enrollRun oracle m a) b := by
  induction a with
  | zero =>
    intro m b
    rw [Nat.zero_add]
    rfl
  | succ a ih =>
    intro m b
    rw [show a + 1 + b = a + b + 1 from by omega]
    exact ih (enrollStep oracle m) b

theorem enrollLoopOracle_even (k : Nat) (h6 : 6 ≤ k) (h2 : k % 2 = 0) :
    enrollLoopOracle k = RecvOutcome.ackOk 0 := by
  unfold enrollLoopOracle
  rw [if_neg (by omega), if_neg (by omega), if_pos h2]

theorem enrollLoopOracle_odd (k : Nat) (h6 : 7 ≤ k) (h2 : k % 2 = 1) :
    enrollLoopOracle k = RecvOutcome.nackErr NACK_FINGER_IS_NOT_PRESSED := by
  unfold enrollLoopOracle
  rw [if_neg (by omega), if_neg (by omega), if_neg (by omega)]

theorem enrollStep_capture_loop (m : EnrollM)
    (hdone : m.done = false) (hstate : m.state = ENROLL_STATE.CAPTURE)
    (h6 : 6 ≤ m.k) (h2 : m.k % 2 = 0) :
    (enrollStep enrollLoopOracle m).done = false ∧
    (enrollStep enrollLoopOracle m).state = ENROLL_STATE.CAPTURE ∧
    6 ≤ (enrollStep enrollLoopOracle m).k ∧
    (enrollStep enrollLoopOracle m).k % 2 = 0 := by
  have ho1 := enrollLoopOracle_even m.k h6 h2
  have ho2 := enrollLoopOracle_odd (m.k + 1) (by omega) (by omega)
  unfold enrollStep
  rw [hdone, hstate]
  simp only [Bool.false_eq_true, if_false]
  unfold Cmd.powerCMOS Cmd.captureFingerprint
  rw [ho1, ho2]
  simp only [applyRecv]
  refine ⟨?_, ?_, ?_, ?_⟩ <;>
    simp [NACK_FINGER_IS_NOT_PRESSED, NACK_COMM_ERR, hdone, hstate] <;> omega

theorem enrollRun_capture_loop : ∀ (n : Nat) (m : EnrollM),
    m.done = false → m.state = ENROLL_STATE.CAPTURE → 6 ≤ m.k → m.k % 2 = 0 →
    (enrollRun enrollLoopOracle m n).done = false := by
  intro n
  induction n with
  | zero => intro m hdone _ _ _; exact hdone
  | succ n ih =>
    intro m hdone hstate h6 h2
    obtain ⟨hd, hs, hk6, hk2⟩ := enrollStep_capture_loop m hdone hstate h6 h2
    exact ih (enrollStep enrollLoopOracle m) hd hs hk6 hk2

/-- Counterexample to claim C4 as stated: there is a device behaviour
(`enrollLoopOracle`: capture always rejected with the recoverable error
`NACK_FINGER_IS_NOT_PRESSED`) under which the `enrollSequence` while-loop
NEVER terminates — every individual receive is bounded, but the workflow
itself can wait forever. -/
theorem C4_counterexample : ¬ enrollTerminates enrollLoopOracle initSession := by
  rintro ⟨n, hn⟩
  rcases n with _ | _ | n2
  · exact absurd hn (by decide)
  · exact absurd hn (by decide)
  · rw [show n2 + 1 + 1 = 2 + n2 from by omega,
      enrollRun_add enrollLoopOracle 2 (enrollInit initSession) n2] at hn
    have hloop := enrollRun_capture_loop n2
      (enrollRun enrollLoopOracle (enrollInit initSession) 2)
      (by decide) (by decide) (by decide) (by decide)
    rw [hloop] at hn
    exact absurd hn (by decide)

/-- Claim C6 (amended): if `powerCMOS(true)` fails while `enrollSequence`
is in the `CAPTURE` state, the workflow does terminate the enrollment with
overall failure at the end of that iteration (`done = true`,
`success = false`) — but contrary to the claim it still issues the
`captureFingerprint` command first (a further device exchange), and the
stored status/error-code fields end up holding that later exchange's
result, not the cause of the illumination failure. -/
theorem C6_cmos_failure (oracle : Nat → RecvOutcome) (m : EnrollM)
    (hdone : m.done = false) (hstate : m.state = ENROLL_STATE.CAPTURE)
    (hfail : (applyRecv m.sess (oracle m.k)).mRespStatus = false) :
    (enrollStep oracle m).done = true ∧ (enrollStep oracle m).success = false ∧
    (enrollStep oracle m).k = m.k + 2 ∧
    (enrollStep oracle m).sess =
      applyRecv (applyRecv m.sess (oracle m.k)) (oracle (m.k + 1)) := by
  unfold enrollStep
  rw [hdone, hstate]
  simp only [Bool.false_eq_true, if_false]
  unfold Cmd.powerCMOS Cmd.captureFingerprint
  dsimp only
  rw [hfail]
  simp only [Bool.false_eq_true, if_false]
  split
  · exact ⟨rfl, rfl, rfl, rfl⟩
  · split
    · exact ⟨rfl, rfl, rfl, rfl⟩
    · exact ⟨rfl, rfl, rfl, rfl⟩

/-- Witness for C6 (amended): from the concrete `CAPTURE` state reached
after two iterations under `cmosFailOracle`, the illumination failure at
exchange 6 ends the enrollment but the capture exchange 7 still happens and
overwrites the session. -/
theorem C6_witness :
    captureAtSix.done = false ∧ captureAtSix.state = ENROLL_STATE.CAPTURE ∧
    (applyRecv captureAtSix.sess (cmosFailOracle captureAtSix.k)).mRespStatus = false ∧
    ((enrollStep cmosFailOracle captureAtSix).done = true ∧
     (enrollStep cmosFailOracle captureAtSix).success = false ∧
     (enrollStep cmosFailOracle captureAtSix).k = captureAtSix.k + 2 ∧
     (enrollStep cmosFailOracle captureAtSix).sess =
       applyRecv (applyRecv captureAtSix.sess (cmosFailOracle captureAtSix.k))
         (cmosFailOracle (captureAtSix.k + 1))) :=
  ⟨by decide, by decide, by decide,
   C6_cmos_failure cmosFailOracle captureAtSix (by decide) (by decide) (by decide)⟩

/-- Counterexample to claim C6 as stated: running `enrollSequence` under
`cmosFailOracle` (illumination enable fails with `NACK_DEV_ERR` at exchange
6 during `CAPTURE`), the workflow fails overall, but it has issued 8
exchanges — including the capture command after the illumination failure —
and the stored fields hold that capture's ACK result (`mRespStatus = true`,
`mRespParam = 0`), not the `NACK_DEV_ERR` cause of the illumination
failure. -/
theorem C6_counterexample :
    cmosFailOracle 6 = RecvOutcome.nackErr NACK_DEV_ERR ∧
    (enrollRun cmosFailOracle (enrollInit initSession) 3).done = true ∧
    (enrollRun cmosFailOracle (enrollInit initSession) 3).success = false ∧
    (enrollRun cmosFailOracle (enrollInit initSession) 3).k = 8 ∧
    (enrollRun cmosFailOracle (enrollInit initSession) 3).sess.mRespStatus = true ∧
    (enrollRun cmosFailOracle (enrollInit initSession) 3).sess.mRespParam = 0 ∧
    (0 : Nat) ≠ NACK_DEV_ERR := by decide

end GT511
